import Mathlib

/-!
Shallow embedding of the core pipeline of team-watchdog/geodog:
the grid-sampling → spatial-filtering → color-clustering → geometry-generation
pipeline shared by `src/image_to_geojson.py` and `src/image_to_shapefile.py`.

External collaborators (cv2 image decoding, geopandas/shapely geometry
operations, the seeded sklearn k-means fit itself) are abstract parameters;
everything the two source files compute is transcribed directly.  Floating
point arithmetic of the source is modelled with exact rationals.
-/

namespace Geodog

/-- A decoded raster image as produced by `cv2.imread`: a pixel grid with
three 8-bit channels per pixel (cv2 yields BGR channel order; the channel
order is opaque to the pipeline, which treats a color as a 3-tuple). -/
structure Raster where
  width : ℕ
  height : ℕ
  pix : ℕ → ℕ → ℕ × ℕ × ℕ

/-- The reference vector layer as read by `gpd.read_file`: a list of
geometries (abstract, handled by the shapely collaborator) together with its
`total_bounds` `(minx, miny, maxx, maxy)`. -/
structure GeoRef (γ : Type) where
  geoms : List γ
  minx : ℚ
  miny : ℚ
  maxx : ℚ
  maxy : ℚ

/-- The shapely/geopandas geometry operations the pipeline calls: `buffer`
and `intersects` (against a polygon given by its corner ring).  They are
external collaborators, so they are abstract parameters of the embedding. -/
structure GeoLib (γ : Type) where
  buffer : γ → ℚ → γ
  intersects : γ → List (ℚ × ℚ) → Bool

/-- The keyword parameters of `image_to_geojson_grid`. -/
structure Params where
  gridSize : ℤ
  xOffset : ℤ
  yOffset : ℤ
  nClusters : ℤ
deriving DecidableEq

/-- The Python-level failures the pipeline can surface, plus the two error
kinds named by the spec (`InvalidParameter`, `InsufficientData`), which the
source never raises but which the claims mention. -/
inductive PyErr where
  /-- `ValueError` from `range(start, stop, 0)`. -/
  | rangeZeroStep
  /-- sklearn's parameter validation: `n_clusters` must be a positive integer. -/
  | sklearnParamError
  /-- sklearn's `ValueError` on an input with 0 samples. -/
  | sklearnEmptyData
  /-- sklearn's `ValueError` when `n_samples < n_clusters`. -/
  | sklearnTooFewSamples
  /-- The spec's `InvalidParameter` error kind (not present in the source). -/
  | specInvalidParameter
  /-- The spec's `InsufficientData` error kind (not present in the source). -/
  | specInsufficientData
deriving DecidableEq

/-- One emitted GeoJSON feature: polygon ring (exterior coordinates),
`color` property and `cluster` property. -/
structure Feature where
  ring : List (ℚ × ℚ)
  color : String
  cluster : String
deriving DecidableEq

/-- The seeded k-means fit `KMeans(n_clusters=k, random_state=42).fit(data)`
is an external library computation; a fit model returns the float cluster
centers (`cluster_centers_`) and the fit labels (`labels_`). -/
abbrev FitFn := ℕ → List (ℕ × ℕ × ℕ) → List (ℚ × ℚ × ℚ) × List ℕ

/-- Extract the payload of an `Except`, with a default for the error case. -/
def okD {ε α : Type _} (e : Except ε α) (d : α) : α :=
  match e with
  | .ok a => a
  | .error _ => d

/-- Number of elements of Python `range(start, stop, step)` for `step ≠ 0`. -/
def pyRangeLen (start stop step : ℤ) : ℕ :=
  if 0 < step then ((stop - start).toNat + (step.toNat - 1)) / step.toNat
  else ((start - stop).toNat + ((-step).toNat - 1)) / (-step).toNat

/-- Python `range(start, stop, step)`: raises `ValueError` when `step = 0`,
otherwise yields `start, start + step, ...` while strictly before `stop`. -/
def pythonRange (start stop step : ℤ) : Except PyErr (List ℤ) :=
  if step = 0 then .error .rangeZeroStep
  else .ok ((List.range (pyRangeLen start stop step)).map fun i : ℕ => start + step * (i : ℤ))

/-- The pixels of the numpy slice `img[y : y + s, x : x + s]`, flattened
row by row (numpy slicing clips at the array bounds).  Faithful for the
coordinates the grid loops produce: `0 ≤ x < width`, `0 ≤ y < height`,
`s ≥ 1`. -/
def sectionPixels (img : Raster) (x y s : ℕ) : List (ℕ × ℕ × ℕ) :=
  (List.range (min (y + s) img.height - y)).flatMap fun dy =>
    (List.range (min (x + s) img.width - x)).map fun dx =>
      img.pix (x + dx) (y + dy)

/-- Squared euclidean distance between a centroid and a color sample. -/
def sqDist (c p : ℚ × ℚ × ℚ) : ℚ :=
  (c.1 - p.1) ^ 2 + (c.2.1 - p.2.1) ^ 2 + (c.2.2 - p.2.2) ^ 2

/-- `kmeans.predict` on one sample: the index of the nearest centroid, with
exact-distance ties resolved to the lowest index (sklearn's assignment loop
replaces the current best only on a strict distance decrease). -/
def nearestIdx : List (ℚ × ℚ × ℚ) → ℚ × ℚ × ℚ → ℕ
  | [], _ => 0
  | c :: rest, p =>
    match rest with
    | [] => 0
    | _ :: _ =>
      let r := nearestIdx rest p
      if sqDist c p ≤ sqDist (rest.getD r (0, 0, 0)) p then 0 else r + 1

/-- `KMeans(n_clusters=k, random_state=42).fit(data)`: sklearn validates the
parameters and then the data before running the (abstract, seeded) fit:
`n_clusters` must be ≥ 1, the sample set must be non-empty, and
`n_samples ≥ n_clusters` must hold. -/
def kmeansFit (fit : FitFn) (k : ℤ) (data : List (ℕ × ℕ × ℕ)) :
    Except PyErr (List (ℚ × ℚ × ℚ) × List ℕ) :=
  if k < 1 then .error .sklearnParamError
  else if data.length = 0 then .error .sklearnEmptyData
  else if (data.length : ℤ) < k then .error .sklearnTooFewSamples
  else .ok (fit k.toNat data)

/-- A color sample (integer channels) as the float vector sklearn sees. -/
def colorQ (c : ℕ × ℕ × ℕ) : ℚ × ℚ × ℚ := ((c.1 : ℚ), (c.2.1 : ℚ), (c.2.2 : ℚ))

/-- `numpy.astype(int)`: truncation toward zero. -/
def truncQ (q : ℚ) : ℤ := if q < 0 then -⌊-q⌋ else ⌊q⌋

/-- Lowercase hexadecimal digit for `n < 16`. -/
def hexDigit (n : ℕ) : Char :=
  if n < 10 then Char.ofNat (48 + n) else Char.ofNat (87 + n)

/-- Big-endian lowercase hexadecimal digits of `n` (Python `format(n, 'x')`). -/
def natHexDigits (n : ℕ) : List Char :=
  if _h : n < 16 then [hexDigit n]
  else natHexDigits (n / 16) ++ [hexDigit (n % 16)]
decreasing_by exact Nat.div_lt_self (by omega) (by omega)

/-- Zero-pad a digit string on the left to width `w`. -/
def hexPad (w : ℕ) (l : List Char) : List Char :=
  List.replicate (w - l.length) '0' ++ l

/-- Python `format(i, '02x')`: lowercase hex, zero-padded to a total width
of 2 (sign included for negative values). -/
def hex02List (i : ℤ) : List Char :=
  if i < 0 then '-' :: hexPad 1 (natHexDigits (-i).toNat)
  else hexPad 2 (natHexDigits i.toNat)

/-- `rasterio.transform.from_bounds(minx, miny, maxx, maxy, width, height)`
applied to a pixel coordinate `(px, py)`: the affine map with x-scale
`(maxx - minx) / width`, y-scale `(miny - maxy) / height` (row 0 is the
northern edge) and translation `(minx, maxy)`. -/
def affineApply {γ : Type} (ref : GeoRef γ) (w h : ℕ) (px py : ℚ) : ℚ × ℚ :=
  (ref.minx + (ref.maxx - ref.minx) / (w : ℚ) * px,
   ref.maxy + (ref.miny - ref.maxy) / (h : ℚ) * py)

namespace ImageToGeojson

/-- `rgb_to_hex` (src/image_to_geojson.py, lines 11-12). -/
def rgb_to_hex (r g b : ℤ) : String :=
  String.mk ('#' :: (hex02List r ++ hex02List g ++ hex02List b))

/-- `get_dominant_color` (lines 14-16): per-channel arithmetic mean over the
flattened section, `astype(int)`-truncated; the mean of non-negative data is
non-negative, so the truncation is the floor, i.e. Nat division of the
channel sum by the pixel count. -/
def get_dominant_color (colors : List (ℕ × ℕ × ℕ)) : ℕ × ℕ × ℕ :=
  ((colors.map fun c => c.1).sum / colors.length,
   (colors.map fun c => c.2.1).sum / colors.length,
   (colors.map fun c => c.2.2).sum / colors.length)

/-- The grid loop indices (lines 47-48): `for y in range(0, height,
grid_size)` outer, `for x in range(0, width, grid_size)` inner, so the cells
are enumerated row-major, left-to-right then top-to-bottom. -/
def gridIndices (w h : ℕ) (s : ℤ) : Except PyErr (List (ℤ × ℤ)) := do
  let ys ← pythonRange 0 (h : ℤ) s
  let xs ← pythonRange 0 (w : ℤ) s
  return ys.flatMap fun y => xs.map fun x => (x, y)

/-- `get_dominant_color(img[y:y+grid_size, x:x+grid_size])` (lines 49-50). -/
def cellColor (img : Raster) (s : ℤ) (c : ℤ × ℤ) : ℕ × ℕ × ℕ :=
  get_dominant_color (sectionPixels img c.1.toNat c.2.toNat s.toNat)

/-- The geographic polygon of grid cell `(x, y)` (lines 52-57): the affine
transform is applied at the offset corners `(x + xo, y + yo)` and
`(x + s + xo, y + s + yo)`; the pixel box is NOT clipped at the image edge. -/
def cellPoly {γ : Type} (ref : GeoRef γ) (w h : ℕ) (p : Params) (x y : ℤ) :
    List (ℚ × ℚ) :=
  let q1 := affineApply ref w h ((x + p.xOffset : ℤ) : ℚ) ((y + p.yOffset : ℤ) : ℚ)
  let q2 := affineApply ref w h ((x + p.gridSize + p.xOffset : ℤ) : ℚ)
    ((y + p.gridSize + p.yOffset : ℤ) : ℚ)
  [(q1.1, q1.2), (q2.1, q1.2), (q2.1, q2.2), (q1.1, q2.2)]

/-- The buffer radius (line 45):
`grid_size * max(maxx - minx, maxy - miny) / max(width, height)`. -/
def bufferRadius {γ : Type} (ref : GeoRef γ) (w h : ℕ) (s : ℤ) : ℚ :=
  (s : ℚ) * max (ref.maxx - ref.minx) (ref.maxy - ref.miny) / ((max w h : ℕ) : ℚ)

/-- The spatial filter (lines 44-62): buffer every reference geometry by
`bufferRadius`, and keep a cell exactly when some buffered geometry
intersects its polygon (`buffered_geometry.intersects(poly).any()`). -/
def retainedCells {γ : Type} (lib : GeoLib γ) (ref : GeoRef γ) (w h : ℕ)
    (p : Params) (cells : List (ℤ × ℤ)) : List (ℤ × ℤ) :=
  let buffered := ref.geoms.map fun g => lib.buffer g (bufferRadius ref w h p.gridSize)
  cells.filter fun c => buffered.any fun bg => lib.intersects bg (cellPoly ref w h p c.1 c.2)

/-- Feature assembly (lines 68-88): hex colors from the truncated float
centroids; each retained cell's id from `kmeans.predict([color])[0]`; the
emitted ring is `list(poly.exterior.coords)`, i.e. the four corners with the
first repeated to close the ring. -/
def mkFeatures {γ : Type} (ref : GeoRef γ) (img : Raster) (p : Params)
    (centers : List (ℚ × ℚ × ℚ)) (cells : List (ℤ × ℤ)) : List Feature :=
  let hexColors := centers.map fun c => rgb_to_hex (truncQ c.1) (truncQ c.2.1) (truncQ c.2.2)
  cells.map fun c =>
    let color := cellColor img p.gridSize c
    let cl := nearestIdx centers (colorQ color)
    let ring := cellPoly ref img.width img.height p c.1 c.2
    { ring := ring ++ [ring.getD 0 (0, 0)],
      color := hexColors.getD cl "",
      cluster := "Cluster_" ++ toString cl }

/-- `image_to_geojson_grid` (src/image_to_geojson.py, lines 18-96), from the
point where the decoded image and the reference layer are in hand to the
assembled in-memory feature collection (path checks, file writes and prints
are external collaborators outside the pipeline). -/
def image_to_geojson_grid {γ : Type} (fit : FitFn) (lib : GeoLib γ)
    (img : Raster) (ref : GeoRef γ) (p : Params) : Except PyErr (List Feature) := do
  let cells ← gridIndices img.width img.height p.gridSize
  let ret := retainedCells lib ref img.width img.height p cells
  let colorData := ret.map fun c => cellColor img p.gridSize c
  let fitted ← kmeansFit fit p.nClusters colorData
  return mkFeatures ref img p fitted.1 ret

end ImageToGeojson

namespace ImageToShapefile

/-- `rgb_to_hex` (src/image_to_shapefile.py, lines 46-47). -/
def rgb_to_hex (r g b : ℤ) : String :=
  String.mk ('#' :: (hex02List r ++ hex02List g ++ hex02List b))

/-- `get_dominant_color` (src/image_to_shapefile.py, lines 49-51). -/
def get_dominant_color (colors : List (ℕ × ℕ × ℕ)) : ℕ × ℕ × ℕ :=
  ((colors.map fun c => c.1).sum / colors.length,
   (colors.map fun c => c.2.1).sum / colors.length,
   (colors.map fun c => c.2.2).sum / colors.length)

/-- The grid loop indices (src/image_to_shapefile.py, lines 82-83). -/
def gridIndices (w h : ℕ) (s : ℤ) : Except PyErr (List (ℤ × ℤ)) := do
  let ys ← pythonRange 0 (h : ℤ) s
  let xs ← pythonRange 0 (w : ℤ) s
  return ys.flatMap fun y => xs.map fun x => (x, y)

/-- `get_dominant_color(img[y:y+grid_size, x:x+grid_size])` (lines 84-85). -/
def cellColor (img : Raster) (s : ℤ) (c : ℤ × ℤ) : ℕ × ℕ × ℕ :=
  get_dominant_color (sectionPixels img c.1.toNat c.2.toNat s.toNat)

/-- The geographic polygon of grid cell `(x, y)` (lines 87-90). -/
def cellPoly {γ : Type} (ref : GeoRef γ) (w h : ℕ) (p : Params) (x y : ℤ) :
    List (ℚ × ℚ) :=
  let q1 := affineApply ref w h ((x + p.xOffset : ℤ) : ℚ) ((y + p.yOffset : ℤ) : ℚ)
  let q2 := affineApply ref w h ((x + p.gridSize + p.xOffset : ℤ) : ℚ)
    ((y + p.gridSize + p.yOffset : ℤ) : ℚ)
  [(q1.1, q1.2), (q2.1, q1.2), (q2.1, q2.2), (q1.1, q2.2)]

/-- The buffer radius (src/image_to_shapefile.py, line 77). -/
def bufferRadius {γ : Type} (ref : GeoRef γ) (w h : ℕ) (s : ℤ) : ℚ :=
  (s : ℚ) * max (ref.maxx - ref.minx) (ref.maxy - ref.miny) / ((max w h : ℕ) : ℚ)

/-- The spatial filter (src/image_to_shapefile.py, lines 76-94). -/
def retainedCells {γ : Type} (lib : GeoLib γ) (ref : GeoRef γ) (w h : ℕ)
    (p : Params) (cells : List (ℤ × ℤ)) : List (ℤ × ℤ) :=
  let buffered := ref.geoms.map fun g => lib.buffer g (bufferRadius ref w h p.gridSize)
  cells.filter fun c => buffered.any fun bg => lib.intersects bg (cellPoly ref w h p c.1 c.2)

/-- Feature assembly (src/image_to_shapefile.py, lines 102-121). -/
def mkFeatures {γ : Type} (ref : GeoRef γ) (img : Raster) (p : Params)
    (centers : List (ℚ × ℚ × ℚ)) (cells : List (ℤ × ℤ)) : List Feature :=
  let hexColors := centers.map fun c => rgb_to_hex (truncQ c.1) (truncQ c.2.1) (truncQ c.2.2)
  cells.map fun c =>
    let color := cellColor img p.gridSize c
    let cl := nearestIdx centers (colorQ color)
    let ring := cellPoly ref img.width img.height p c.1 c.2
    { ring := ring ++ [ring.getD 0 (0, 0)],
      color := hexColors.getD cl "",
      cluster := "Cluster_" ++ toString cl }

/-- `image_to_geojson_grid` (src/image_to_shapefile.py, lines 53-130): the
same computation as the geojson converter; the extra `total_cells` count
(lines 80-81) only drives the tqdm progress bar, an external side effect with
no influence on the emitted collection. -/
def image_to_geojson_grid {γ : Type} (fit : FitFn) (lib : GeoLib γ)
    (img : Raster) (ref : GeoRef γ) (p : Params) : Except PyErr (List Feature) := do
  let cells ← gridIndices img.width img.height p.gridSize
  let ret := retainedCells lib ref img.width img.height p cells
  let colorData := ret.map fun c => cellColor img p.gridSize c
  let fitted ← kmeansFit fit p.nClusters colorData
  return mkFeatures ref img p fitted.1 ret

end ImageToShapefile

/-- The clipped pixel bounding box of grid cell `(x, y)`: the numpy slice
`img[y:y+s, x:x+s]` covers the rows `[y, min(y+s, h))` and the columns
`[x, min(x+s, w))` of the raster. -/
def cellBox (w h : ℕ) (s : ℤ) (c : ℤ × ℤ) : ℤ × ℤ × ℤ × ℤ :=
  (c.1, c.2, min (c.1 + s) (w : ℤ), min (c.2 + s) (h : ℤ))

/-- Pixel `(px, py)` lies in the clipped bounding box of cell `c`. -/
def pixInBox (w h : ℕ) (s : ℤ) (c : ℤ × ℤ) (px py : ℕ) : Prop :=
  c.1 ≤ (px : ℤ) ∧ (px : ℤ) < min (c.1 + s) (w : ℤ) ∧
  c.2 ≤ (py : ℤ) ∧ (py : ℤ) < min (c.2 + s) (h : ℤ)

instance (w h : ℕ) (s : ℤ) (c : ℤ × ℤ) (px py : ℕ) :
    Decidable (pixInBox w h s c px py) := by
  unfold pixInBox; infer_instance

/-- Checks that a ring is a closed quadrilateral: exactly 5 coordinate pairs
with the last equal to the first. -/
def ringClosed5 (r : List (ℚ × ℚ)) : Bool :=
  r.length == 5 && r.head? == r.getLast?

/-- Checks a lowercase hexadecimal digit character. -/
def isHexLowerChar (c : Char) : Bool :=
  ('0' ≤ c && c ≤ '9') || ('a' ≤ c && c ≤ 'f')

/-- Checks a color string of the form `#` followed by six lowercase
hexadecimal digits. -/
def colorHex7 (s : String) : Bool :=
  match s.data with
  | [] => false
  | c :: rest => c == '#' && rest.length == 6 && rest.all isHexLowerChar

/-- Checks a cluster tag of the form `Cluster_<id>` with `0 ≤ id < k`. -/
def clusterTagLt (k : ℤ) (s : String) : Bool :=
  (List.range (max k 0).toNat).any fun id => s == "Cluster_" ++ toString id

/-- Follows the spec's words, for the C2 comparison (spec §4.5): a
FeatureAssembler variant in which the id attached to the i-th retained cell
is the label produced during the k-means fit itself (`labels_[i]`), instead
of the source's post-hoc `kmeans.predict` nearest-centroid lookup. -/
def specFitLabelFeatures {γ : Type} (ref : GeoRef γ) (img : Raster) (p : Params)
    (centers : List (ℚ × ℚ × ℚ)) (labels : List ℕ) (cells : List (ℤ × ℤ)) :
    List Feature :=
  let hexColors := centers.map fun c =>
    ImageToGeojson.rgb_to_hex (truncQ c.1) (truncQ c.2.1) (truncQ c.2.2)
  (List.range cells.length).map fun i =>
    let c := cells.getD i (0, 0)
    let cl := labels.getD i 0
    let ring := ImageToGeojson.cellPoly ref img.width img.height p c.1 c.2
    { ring := ring ++ [ring.getD 0 (0, 0)],
      color := hexColors.getD cl "",
      cluster := "Cluster_" ++ toString cl }

/-- Follows the spec's words, for the C2 comparison: the pipeline with the
fit-label FeatureAssembler of the spec in place of the source's
predict-based one; all other stages are the source's. -/
def specFitLabelRun {γ : Type} (fit : FitFn) (lib : GeoLib γ)
    (img : Raster) (ref : GeoRef γ) (p : Params) : Except PyErr (List Feature) := do
  let cells ← ImageToGeojson.gridIndices img.width img.height p.gridSize
  let ret := ImageToGeojson.retainedCells lib ref img.width img.height p cells
  let colorData := ret.map fun c => ImageToGeojson.cellColor img p.gridSize c
  let fitted ← kmeansFit fit p.nClusters colorData
  return specFitLabelFeatures ref img p fitted.1 fitted.2 ret

/-! Concrete instantiations of the external collaborators, used to evaluate
the pipeline at explicit inputs. -/

/-- A geometry library whose intersection test always succeeds (a reference
geometry covering everything). -/
def wLibAll : GeoLib Unit := { buffer := fun g _ => g, intersects := fun _ _ => true }

/-- A geometry library whose intersection test always fails (a reference
geometry with no overlap with the raster extent). -/
def wLibNone : GeoLib Unit := { buffer := fun g _ => g, intersects := fun _ _ => false }

/-- A fit model returning `k` copies of the centroid `(1, 2, 3)` and no labels. -/
def wFitRep : FitFn := fun k _ => (List.replicate k ((1 : ℚ), (2 : ℚ), (3 : ℚ)), [])

/-- A 3 × 2 raster of constant color `(7, 7, 7)`. -/
def wImg32 : Raster := { width := 3, height := 2, pix := fun _ _ => (7, 7, 7) }

/-- A reference layer with `total_bounds` `(0, 0, 3, 2)`, so the affine map
is the identity on x and `y ↦ 2 - y` on y. -/
def wRef32 : GeoRef Unit := { geoms := [()], minx := 0, miny := 0, maxx := 3, maxy := 2 }

/-- A 3 × 1 raster of constant color `(7, 7, 7)`. -/
def wImg31 : Raster := { width := 3, height := 1, pix := fun _ _ => (7, 7, 7) }

/-- A 2 × 1 raster of constant color `(4, 4, 4)`. -/
def wImg21 : Raster := { width := 2, height := 1, pix := fun _ _ => (4, 4, 4) }

/-- A 2 × 2 raster of constant color `(9, 8, 7)`. -/
def wImg22 : Raster := { width := 2, height := 2, pix := fun _ _ => (9, 8, 7) }

/-- A 1 × 1 raster with the single pixel `(5, 6, 7)`. -/
def wImg11 : Raster := { width := 1, height := 1, pix := fun _ _ => (5, 6, 7) }

/-- A reference layer with `total_bounds` `(0, 0, 1, 1)`. -/
def wRef11 : GeoRef Unit := { geoms := [()], minx := 0, miny := 0, maxx := 1, maxy := 1 }

/-- A 2 × 1 raster whose left pixel is `(0, 0, 0)` and right pixel
`(100, 100, 100)`. -/
def wImgC2 : Raster :=
  { width := 2, height := 1, pix := fun x _ => if x = 0 then (0, 0, 0) else (100, 100, 100) }

/-- A reference layer with `total_bounds` `(0, 0, 2, 1)`. -/
def wRefC2 : GeoRef Unit := { geoms := [()], minx := 0, miny := 0, maxx := 2, maxy := 1 }

/-- A fit model returning the two centroids `(0,0,0)` and `(100,100,100)`
with the fit labels `[1, 0]` — a fit outcome whose stored labels disagree
with the post-hoc nearest-centroid lookup of the samples. -/
def wFitC2 : FitFn := fun _ _ => ([((0 : ℚ), (0 : ℚ), (0 : ℚ)), (100, 100, 100)], [1, 0])

/-- The single feature the pipeline emits on `wImg11`/`wRef11` with grid
size 1 and one cluster (the `wFitRep` fit model). -/
def wFeat11 : Feature :=
  { ring := [((0 : ℚ), 1), (1, 1), (1, 0), (0, 0), (0, 1)],
    color := "#010203", cluster := "Cluster_0" }

/-! Helper lemmas about the embedded library semantics. -/

theorem nearestIdx_singleton (c q : ℚ × ℚ × ℚ) : nearestIdx [c] q = 0 := rfl

theorem nearestIdx_cons2 (c c2 : ℚ × ℚ × ℚ) (rest : List (ℚ × ℚ × ℚ)) (q : ℚ × ℚ × ℚ) :
    nearestIdx (c :: c2 :: rest) q =
      if sqDist c q ≤ sqDist ((c2 :: rest).getD (nearestIdx (c2 :: rest) q) (0, 0, 0)) q
      then 0 else nearestIdx (c2 :: rest) q + 1 := by
  rfl

theorem nearestIdx_lt (centers : List (ℚ × ℚ × ℚ)) (q : ℚ × ℚ × ℚ)
    (h : centers ≠ []) : nearestIdx centers q < centers.length := by
  induction centers with
  | nil => simp at h
  | cons c rest ih =>
    cases rest with
    | nil => simp [nearestIdx]
    | cons c2 rest2 =>
      rw [nearestIdx_cons2]
      split
      · simp
      · have h2 := ih (by simp)
        simpa [Nat.succ_lt_succ_iff] using h2

theorem nearestIdx_min (centers : List (ℚ × ℚ × ℚ)) (q : ℚ × ℚ × ℚ) (j : ℕ)
    (hj : j < centers.length) :
    sqDist (centers.getD (nearestIdx centers q) (0, 0, 0)) q ≤
      sqDist (centers.getD j (0, 0, 0)) q := by
  induction centers generalizing j with
  | nil => simp at hj
  | cons c rest ih =>
    cases rest with
    | nil =>
      have hj0 : j = 0 := by simpa using hj
      subst hj0; simp [nearestIdx]
    | cons c2 rest2 =>
      rw [nearestIdx_cons2]
      split
      · rename_i hle
        cases j with
        | zero => simp
        | succ j2 =>
          have h2 := ih j2 (by simpa using hj)
          simpa using le_trans hle h2
      · rename_i hgt
        have hlt := lt_of_not_le hgt
        cases j with
        | zero => simpa using le_of_lt hlt
        | succ j2 =>
          have h2 := ih j2 (by simpa using hj)
          simpa using h2

theorem nearestIdx_least (centers : List (ℚ × ℚ × ℚ)) (q : ℚ × ℚ × ℚ) (j : ℕ)
    (hj : j < centers.length)
    (hd : sqDist (centers.getD j (0, 0, 0)) q ≤
      sqDist (centers.getD (nearestIdx centers q) (0, 0, 0)) q) :
    nearestIdx centers q ≤ j := by
  induction centers generalizing j with
  | nil => simp at hj
  | cons c rest ih =>
    cases rest with
    | nil => simp [nearestIdx]
    | cons c2 rest2 =>
      rw [nearestIdx_cons2] at hd ⊢
      split
      · exact Nat.zero_le j
      · rename_i hgt
        rw [if_neg hgt] at hd
        have hlt := lt_of_not_le hgt
        cases j with
        | zero =>
          exfalso
          rw [List.getD_cons_succ, List.getD_cons_zero] at hd
          exact absurd hd (not_le.2 hlt)
        | succ j2 =>
          have h2 := ih j2 (by simpa using hj) (by simpa using hd)
          omega

theorem pythonRange_pos (n : ℕ) (s : ℤ) (hs : 1 ≤ s) :
    pythonRange 0 (n : ℤ) s =
      .ok ((List.range ((n + (s.toNat - 1)) / s.toNat)).map fun i : ℕ => s * (i : ℤ)) := by
  have h0 : ¬ s = 0 := by omega
  have h1 : 0 < s := by omega
  simp only [pythonRange, pyRangeLen, if_neg h0, if_pos h1, sub_zero, Int.toNat_ofNat,
    zero_add]

theorem lt_ceil_div_iff (n t i : ℕ) (ht : 1 ≤ t) :
    i < (n + (t - 1)) / t ↔ t * i < n := by
  constructor
  · intro h
    have h2 : (i + 1) * t ≤ n + (t - 1) := (Nat.le_div_iff_mul_le (by omega)).1 h
    rw [Nat.add_mul, Nat.one_mul] at h2
    rw [Nat.mul_comm]
    generalize hm : i * t = m at h2 ⊢
    omega
  · intro h
    have h2 : (i + 1) * t ≤ n + (t - 1) := by
      rw [Nat.add_mul, Nat.one_mul]
      rw [Nat.mul_comm] at h
      generalize hm : i * t = m at h ⊢
      omega
    exact (Nat.le_div_iff_mul_le (by omega)).2 h2

theorem gridIndices_pos (w h : ℕ) (s : ℤ) (hs : 1 ≤ s) :
    ImageToGeojson.gridIndices w h s =
      .ok ((List.range ((h + (s.toNat - 1)) / s.toNat)).flatMap fun i : ℕ =>
        (List.range ((w + (s.toNat - 1)) / s.toNat)).map fun j : ℕ =>
          (s * (j : ℤ), s * (i : ℤ))) := by
  unfold ImageToGeojson.gridIndices
  rw [pythonRange_pos h s hs, pythonRange_pos w s hs]
  show Except.ok _ = _
  refine congrArg Except.ok ?_
  rw [List.flatMap_map]
  refine congrArg _ ?_
  funext i
  rw [List.map_map]
  rfl

theorem mem_gridIndices (w h : ℕ) (s : ℤ) (hs : 1 ≤ s) (c : ℤ × ℤ) :
    c ∈ okD (ImageToGeojson.gridIndices w h s) [] ↔
      ∃ i j : ℕ, s.toNat * i < h ∧ s.toNat * j < w ∧ c = (s * (j : ℤ), s * (i : ℤ)) := by
  rw [gridIndices_pos w h s hs]
  show c ∈ okD (Except.ok _) [] ↔ _
  rw [show ∀ l : List (ℤ × ℤ), okD (Except.ok l : Except PyErr _) [] = l from fun _ => rfl]
  simp only [List.mem_flatMap, List.mem_map, List.mem_range]
  constructor
  · rintro ⟨i, hi, j, hj, hc⟩
    exact ⟨i, j, (lt_ceil_div_iff h s.toNat i (by omega)).1 hi,
      (lt_ceil_div_iff w s.toNat j (by omega)).1 hj, hc.symm⟩
  · rintro ⟨i, j, hi, hj, hc⟩
    exact ⟨i, (lt_ceil_div_iff h s.toNat i (by omega)).2 hi,
      j, (lt_ceil_div_iff w s.toNat j (by omega)).2 hj, hc.symm⟩

theorem except_bind_ok {ε α β : Type} (a : α) (f : α → Except ε β) :
    ((Except.ok a : Except ε α) >>= f) = f a := rfl

theorem except_bind_error {ε α β : Type} (e : ε) (f : α → Except ε β) :
    ((Except.error e : Except ε α) >>= f) = .error e := rfl

theorem okD_ok {ε α : Type} (a : α) (d : α) : okD (Except.ok a : Except ε α) d = a := rfl

theorem except_bind_pure_map {ε α β : Type} (e : Except ε α) (f : α → β) :
    (e >>= fun a => (pure (f a) : Except ε β)) = e.map f := by
  cases e <;> rfl

theorem kmeansFit_ok {fit : FitFn} {k : ℤ} {data : List (ℕ × ℕ × ℕ)}
    {res : List (ℚ × ℚ × ℚ) × List ℕ} (h : kmeansFit fit k data = .ok res) :
    1 ≤ k ∧ 0 < data.length ∧ k ≤ (data.length : ℤ) ∧ res = fit k.toNat data := by
  unfold kmeansFit at h
  by_cases h1 : k < 1
  · rw [if_pos h1] at h; exact absurd h (by simp)
  rw [if_neg h1] at h
  by_cases h2 : data.length = 0
  · rw [if_pos h2] at h; exact absurd h (by simp)
  rw [if_neg h2] at h
  by_cases h3 : (data.length : ℤ) < k
  · rw [if_pos h3] at h; exact absurd h (by simp)
  rw [if_neg h3] at h
  refine ⟨by omega, by omega, by omega, ?_⟩
  injection h with h4
  exact h4.symm

theorem hexDigit_hex : ∀ n : ℕ, n < 16 → isHexLowerChar (hexDigit n) = true := by decide

theorem natHexDigits_lt16 (n : ℕ) (h : n < 16) : natHexDigits n = [hexDigit n] := by
  unfold natHexDigits
  rw [dif_pos h]

theorem natHexDigits_ge16 (n : ℕ) (h : ¬ n < 16) :
    natHexDigits n = natHexDigits (n / 16) ++ [hexDigit (n % 16)] := by
  conv_lhs => rw [natHexDigits]
  rw [dif_neg h]

theorem hex02List_hex (i : ℤ) (h0 : 0 ≤ i) (h255 : i ≤ 255) :
    (hex02List i).length = 2 ∧ ∀ ch ∈ hex02List i, isHexLowerChar ch = true := by
  have hneg : ¬ i < 0 := by omega
  unfold hex02List
  rw [if_neg hneg]
  have hn255 : i.toNat ≤ 255 := by omega
  by_cases h16 : i.toNat < 16
  · rw [natHexDigits_lt16 _ h16]
    rw [show hexPad 2 [hexDigit i.toNat] = ['0', hexDigit i.toNat] from rfl]
    refine ⟨rfl, ?_⟩
    intro ch hch
    rcases List.mem_cons.1 hch with h1 | h1
    · subst h1; decide
    · rcases List.mem_singleton.1 h1 with h2
      subst h2; exact hexDigit_hex _ h16
  · have h16q : i.toNat / 16 < 16 := by omega
    rw [natHexDigits_ge16 _ h16, natHexDigits_lt16 _ h16q]
    rw [show ∀ d1 d2 : Char, ([d1] ++ [d2] : List Char) = [d1, d2] from fun _ _ => rfl,
      show ∀ d1 d2 : Char, hexPad 2 [d1, d2] = [d1, d2] from fun _ _ => rfl]
    refine ⟨rfl, ?_⟩
    intro ch hch
    rcases List.mem_cons.1 hch with h1 | h1
    · subst h1; exact hexDigit_hex _ h16q
    · rcases List.mem_singleton.1 h1 with h2
      subst h2; exact hexDigit_hex _ (Nat.mod_lt _ (by omega))

theorem colorHex7_rgb_to_hex (r g b : ℤ) (hr0 : 0 ≤ r) (hr : r ≤ 255) (hg0 : 0 ≤ g)
    (hg : g ≤ 255) (hb0 : 0 ≤ b) (hb : b ≤ 255) :
    colorHex7 (ImageToGeojson.rgb_to_hex r g b) = true := by
  obtain ⟨lenr, hexr⟩ := hex02List_hex r hr0 hr
  obtain ⟨leng, hexg⟩ := hex02List_hex g hg0 hg
  obtain ⟨lenb, hexb⟩ := hex02List_hex b hb0 hb
  show ((('#' : Char) == '#') &&
    ((hex02List r ++ hex02List g ++ hex02List b).length == 6) &&
    (hex02List r ++ hex02List g ++ hex02List b).all isHexLowerChar) = true
  simp only [Bool.and_eq_true, beq_iff_eq, List.all_eq_true, List.length_append,
    List.mem_append]
  refine ⟨⟨trivial, by omega⟩, ?_⟩
  intro ch hch
  rcases hch with (h1 | h1) | h1
  · exact hexr ch h1
  · exact hexg ch h1
  · exact hexb ch h1

theorem truncQ_bounds (q : ℚ) (h0 : 0 ≤ q) (h255 : q ≤ 255) :
    0 ≤ truncQ q ∧ truncQ q ≤ 255 := by
  unfold truncQ
  rw [if_neg (not_lt.2 h0)]
  refine ⟨Int.floor_nonneg.2 h0, ?_⟩
  have h2 : (⌊q⌋ : ℤ) ≤ ⌊(255 : ℚ)⌋ := Int.floor_le_floor h255
  simpa using h2

theorem sectionPixels_mem (img : Raster) (x y t : ℕ) (a : ℕ × ℕ × ℕ) :
    a ∈ sectionPixels img x y t ↔
      ∃ dy dx : ℕ, dy < min (y + t) img.height - y ∧ dx < min (x + t) img.width - x ∧
        a = img.pix (x + dx) (y + dy) := by
  unfold sectionPixels
  simp only [List.mem_flatMap, List.mem_map, List.mem_range]
  constructor
  · rintro ⟨dy, hdy, dx, hdx, ha⟩
    exact ⟨dy, dx, hdy, hdx, ha.symm⟩
  · rintro ⟨dy, dx, hdy, hdx, ha⟩
    exact ⟨dy, hdy, dx, hdx, ha.symm⟩

theorem sectionPixels_ne_nil (img : Raster) (x y t : ℕ) (hx : x < img.width)
    (hy : y < img.height) (ht : 1 ≤ t) : sectionPixels img x y t ≠ [] := by
  have hmem : img.pix (x + 0) (y + 0) ∈ sectionPixels img x y t := by
    rw [sectionPixels_mem]
    exact ⟨0, 0, by omega, by omega, rfl⟩
  intro hnil
  rw [hnil] at hmem
  simp at hmem

theorem dominant_const (l : List (ℕ × ℕ × ℕ)) (c : ℕ × ℕ × ℕ) (hne : l ≠ [])
    (hall : ∀ a ∈ l, a = c) : ImageToGeojson.get_dominant_color l = c := by
  have hrep : l = List.replicate l.length c := List.eq_replicate_of_mem hall
  have hlen : 0 < l.length := List.length_pos.2 hne
  rcases c with ⟨c1, c2, c3⟩
  unfold ImageToGeojson.get_dominant_color
  conv_lhs => rw [hrep]
  simp only [List.map_replicate, List.sum_replicate, List.length_replicate, smul_eq_mul]
  rw [Nat.mul_div_cancel_left c1 hlen, Nat.mul_div_cancel_left c2 hlen,
    Nat.mul_div_cancel_left c3 hlen]

theorem mem_gridIndices_nat (w h t : ℕ) (ht : 1 ≤ t) (c : ℤ × ℤ) :
    c ∈ okD (ImageToGeojson.gridIndices w h (t : ℤ)) [] ↔
      ∃ i j : ℕ, t * i < h ∧ t * j < w ∧ c = (((t * j : ℕ) : ℤ), ((t * i : ℕ) : ℤ)) := by
  rw [mem_gridIndices w h _ (by exact_mod_cast ht)]
  refine exists_congr fun i => exists_congr fun j => ?_
  rw [Int.toNat_ofNat]
  constructor
  · rintro ⟨h1, h2, h3⟩
    exact ⟨h1, h2, by rw [h3]; push_cast; rfl⟩
  · rintro ⟨h1, h2, h3⟩
    exact ⟨h1, h2, by rw [h3]; push_cast; rfl⟩

theorem pixInBox_nat (w h t a b px py : ℕ) :
    pixInBox w h (t : ℤ) (((a : ℕ) : ℤ), ((b : ℕ) : ℤ)) px py ↔
      a ≤ px ∧ px < min (a + t) w ∧ b ≤ py ∧ py < min (b + t) h := by
  unfold pixInBox
  rw [show ((t : ℤ)) = ((t : ℕ) : ℤ) from rfl, ← Nat.cast_add, ← Nat.cast_add,
    ← Nat.cast_min, ← Nat.cast_min, Nat.cast_le, Nat.cast_le, Nat.cast_lt, Nat.cast_lt]

theorem nat_lt_div_mul_add (px t : ℕ) (ht : 1 ≤ t) : px < t * (px / t) + t := by
  have hdm := Nat.div_add_mod px t
  have hmod := Nat.mod_lt px (show 0 < t by omega)
  generalize hA : t * (px / t) = A at hdm ⊢
  omega

theorem pythonRange_neg (n : ℕ) (s : ℤ) (hs : s < 0) : pythonRange 0 (n : ℤ) s = .ok [] := by
  have h0 : ¬ s = 0 := by omega
  have h1 : ¬ 0 < s := by omega
  unfold pythonRange pyRangeLen
  rw [if_neg h0, if_neg h1]
  have h3 : (((0 : ℤ) - (n : ℤ)).toNat + ((-s).toNat - 1)) / (-s).toNat = 0 := by
    have h4 : ((0 : ℤ) - (n : ℤ)).toNat = 0 := Int.toNat_of_nonpos (by omega)
    rw [h4]
    exact Nat.div_eq_of_lt (by omega)
  rw [h3]
  rfl

theorem gridIndices_neg (w h : ℕ) (s : ℤ) (hs : s < 0) :
    ImageToGeojson.gridIndices w h s = .ok [] := by
  unfold ImageToGeojson.gridIndices
  rw [pythonRange_neg h s hs, pythonRange_neg w s hs]
  rfl

theorem run_eq_of_cells {γ : Type} (fit : FitFn) (lib : GeoLib γ) (img : Raster)
    (ref : GeoRef γ) (p : Params) (cells : List (ℤ × ℤ))
    (hg : ImageToGeojson.gridIndices img.width img.height p.gridSize = .ok cells) :
    ImageToGeojson.image_to_geojson_grid fit lib img ref p =
      (kmeansFit fit p.nClusters
        ((ImageToGeojson.retainedCells lib ref img.width img.height p cells).map
          fun c => ImageToGeojson.cellColor img p.gridSize c)).map
        fun fitted => ImageToGeojson.mkFeatures ref img p fitted.1
          (ImageToGeojson.retainedCells lib ref img.width img.height p cells) := by
  unfold ImageToGeojson.image_to_geojson_grid
  rw [hg, except_bind_ok]
  exact except_bind_pure_map _ _

theorem gridIndices_ok_of_ne_zero (w h : ℕ) (s : ℤ) (hs : s ≠ 0) :
    ImageToGeojson.gridIndices w h s =
      .ok (okD (ImageToGeojson.gridIndices w h s) []) := by
  unfold ImageToGeojson.gridIndices pythonRange
  simp only [if_neg hs]
  rfl

theorem run_ok_elim {γ : Type} {fit : FitFn} {lib : GeoLib γ} {img : Raster}
    {ref : GeoRef γ} {p : Params} {fs : List Feature}
    (hrun : ImageToGeojson.image_to_geojson_grid fit lib img ref p = .ok fs) :
    let cells := okD (ImageToGeojson.gridIndices img.width img.height p.gridSize) []
    let ret := ImageToGeojson.retainedCells lib ref img.width img.height p cells
    let data := ret.map fun c => ImageToGeojson.cellColor img p.gridSize c
    ImageToGeojson.gridIndices img.width img.height p.gridSize = .ok cells
    ∧ 1 ≤ p.nClusters ∧ 0 < data.length ∧ p.nClusters ≤ (data.length : ℤ)
    ∧ fs = ImageToGeojson.mkFeatures ref img p (fit p.nClusters.toNat data).1 ret := by
  intro cells ret data
  by_cases hz : p.gridSize = 0
  · exfalso
    unfold ImageToGeojson.image_to_geojson_grid ImageToGeojson.gridIndices
      pythonRange at hrun
    rw [if_pos hz] at hrun
    exact absurd hrun (by simp [except_bind_error])
  · have hg := gridIndices_ok_of_ne_zero img.width img.height p.gridSize hz
    have hrun2 := (run_eq_of_cells fit lib img ref p _ hg).symm.trans hrun
    cases hk : kmeansFit fit p.nClusters data with
    | error e =>
      rw [hk] at hrun2
      exact absurd hrun2 (by simp [Except.map])
    | ok res =>
      rw [hk] at hrun2
      obtain ⟨h1, h2, h3, h4⟩ := kmeansFit_ok hk
      refine ⟨hg, h1, h2, h3, ?_⟩
      have h5 : Except.ok (ImageToGeojson.mkFeatures ref img p res.1 ret) =
          (Except.ok fs : Except PyErr _) := hrun2
      injection h5 with h6
      rw [← h6, h4]

theorem mkFeatures_invariants {γ : Type} (ref : GeoRef γ) (img : Raster) (p : Params)
    (centers : List (ℚ × ℚ × ℚ)) (cells : List (ℤ × ℤ)) (hne : centers ≠ [])
    (hbound : ∀ cc ∈ centers, 0 ≤ cc.1 ∧ cc.1 ≤ 255 ∧ 0 ≤ cc.2.1 ∧ cc.2.1 ≤ 255 ∧
      0 ≤ cc.2.2 ∧ cc.2.2 ≤ 255) :
    ∀ f ∈ ImageToGeojson.mkFeatures ref img p centers cells,
      ringClosed5 f.ring = true ∧ colorHex7 f.color = true ∧
        ∃ id : ℕ, id < centers.length ∧ f.cluster = "Cluster_" ++ toString id := by
  intro f hf
  unfold ImageToGeojson.mkFeatures at hf
  obtain ⟨c, hc, rfl⟩ := List.mem_map.1 hf
  have hcl : nearestIdx centers (colorQ (ImageToGeojson.cellColor img p.gridSize c)) <
      centers.length := nearestIdx_lt centers _ hne
  refine ⟨?_, ?_, ?_⟩
  · show ringClosed5 (ImageToGeojson.cellPoly ref img.width img.height p c.1 c.2 ++
      [(ImageToGeojson.cellPoly ref img.width img.height p c.1 c.2).getD 0 (0, 0)]) = true
    unfold ImageToGeojson.cellPoly
    simp [ringClosed5, List.getLast?_concat]
  · show colorHex7 ((centers.map fun cc => ImageToGeojson.rgb_to_hex (truncQ cc.1)
      (truncQ cc.2.1) (truncQ cc.2.2)).getD
      (nearestIdx centers (colorQ (ImageToGeojson.cellColor img p.gridSize c))) "") = true
    rw [List.getD_eq_get?, List.get?_map, List.get?_eq_get hcl]
    simp only [Option.map_some', Option.getD_some]
    obtain ⟨h1, h2, h3, h4, h5, h6⟩ := hbound _ (List.get_mem centers _ _)
    exact colorHex7_rgb_to_hex _ _ _ (truncQ_bounds _ h1 h2).1 (truncQ_bounds _ h1 h2).2
      (truncQ_bounds _ h3 h4).1 (truncQ_bounds _ h3 h4).2
      (truncQ_bounds _ h5 h6).1 (truncQ_bounds _ h5 h6).2
  · exact ⟨nearestIdx centers (colorQ (ImageToGeojson.cellColor img p.gridSize c)),
      hcl, rfl⟩

/-! The claims. -/

/-- C5: the buffer radius applied to the reference geometry equals
`gridSize_pixels × max(geoWidth, geoHeight) / max(rasterWidth, rasterHeight)`
(one grid cell's width in geographic units), and a cell is retained exactly
when its geographic polygon intersects some so-buffered reference geometry. -/
theorem c5_buffer_radius_retention (γ : Type) (lib : GeoLib γ) (ref : GeoRef γ)
    (w h : ℕ) (p : Params) (cells : List (ℤ × ℤ)) (c : ℤ × ℤ) :
    ImageToGeojson.bufferRadius ref w h p.gridSize =
      (p.gridSize : ℚ) * max (ref.maxx - ref.minx) (ref.maxy - ref.miny) /
        ((max w h : ℕ) : ℚ)
    ∧ (c ∈ ImageToGeojson.retainedCells lib ref w h p cells ↔
        c ∈ cells ∧ (ref.geoms.any fun g =>
          lib.intersects (lib.buffer g (ImageToGeojson.bufferRadius ref w h p.gridSize))
            (ImageToGeojson.cellPoly ref w h p c.1 c.2)) = true) := by
  refine ⟨rfl, ?_⟩
  unfold ImageToGeojson.retainedCells
  simp only [List.mem_filter, List.any_map]
  exact Iff.rfl

/-- C7: the embedded pipeline is a pure function of its inputs (the k-means
seed is fixed), so two runs on identical inputs yield identical feature
collections; and the per-cell cluster assignment `nearestIdx` picks a valid
centroid index of minimal distance, resolving exact-distance ties to the
lowest cluster index. -/
theorem c7_determinism_tiebreak :
    (∀ (γ : Type) (fit : FitFn) (lib : GeoLib γ) (img : Raster) (ref : GeoRef γ)
        (p : Params),
      ImageToGeojson.image_to_geojson_grid fit lib img ref p =
        ImageToGeojson.image_to_geojson_grid fit lib img ref p)
    ∧ (∀ (centers : List (ℚ × ℚ × ℚ)) (q : ℚ × ℚ × ℚ),
        centers ≠ [] → nearestIdx centers q < centers.length)
    ∧ (∀ (centers : List (ℚ × ℚ × ℚ)) (q : ℚ × ℚ × ℚ) (j : ℕ), j < centers.length →
        sqDist (centers.getD (nearestIdx centers q) (0, 0, 0)) q ≤
          sqDist (centers.getD j (0, 0, 0)) q)
    ∧ (∀ (centers : List (ℚ × ℚ × ℚ)) (q : ℚ × ℚ × ℚ) (j : ℕ), j < centers.length →
        sqDist (centers.getD j (0, 0, 0)) q =
          sqDist (centers.getD (nearestIdx centers q) (0, 0, 0)) q →
        nearestIdx centers q ≤ j) :=
  ⟨fun _ _ _ _ _ _ => rfl, nearestIdx_lt, nearestIdx_min,
   fun centers q j hj hd => nearestIdx_least centers q j hj (le_of_eq hd)⟩

/-- Witness for C7 at concrete inputs. -/
theorem c7_determinism_tiebreak_witness :
    ImageToGeojson.image_to_geojson_grid wFitRep wLibAll wImg32 wRef32
        { gridSize := 2, xOffset := 0, yOffset := 0, nClusters := 1 } =
      ImageToGeojson.image_to_geojson_grid wFitRep wLibAll wImg32 wRef32
        { gridSize := 2, xOffset := 0, yOffset := 0, nClusters := 1 }
    ∧ nearestIdx [(0, 0, 0), (2, 0, 0), (1, 0, 0)] (1, 0, 0) < 3
    ∧ sqDist (([(0, 0, 0), (2, 0, 0), (1, 0, 0)] : List (ℚ × ℚ × ℚ)).getD
        (nearestIdx [(0, 0, 0), (2, 0, 0), (1, 0, 0)] (1, 0, 0)) (0, 0, 0)) (1, 0, 0) ≤
        sqDist (([(0, 0, 0), (2, 0, 0), (1, 0, 0)] : List (ℚ × ℚ × ℚ)).getD 1 (0, 0, 0))
          (1, 0, 0)
    ∧ nearestIdx [(0, 0, 0), (0, 0, 0)] (0, 0, 0) ≤ 1 :=
  ⟨c7_determinism_tiebreak.1 Unit wFitRep wLibAll wImg32 wRef32 _,
   c7_determinism_tiebreak.2.1 _ _ (by simp),
   c7_determinism_tiebreak.2.2.1 _ _ 1 (by simp),
   c7_determinism_tiebreak.2.2.2 _ _ 1 (by simp) (by norm_num [nearestIdx, sqDist])⟩

/-- C8: a cell's representative color is the per-channel arithmetic mean of
the pixels of its (possibly clipped) box, truncated to integer; consequently
on a raster whose pixels all have one color, every grid cell's representative
color is exactly that color. -/
theorem c8_mean_color :
    (∀ colors : List (ℕ × ℕ × ℕ),
      ImageToGeojson.get_dominant_color colors =
        ((colors.map fun c => c.1).sum / colors.length,
         (colors.map fun c => c.2.1).sum / colors.length,
         (colors.map fun c => c.2.2).sum / colors.length))
    ∧ ∀ (img : Raster) (col : ℕ × ℕ × ℕ) (s : ℤ), 1 ≤ s →
        (∀ px py : ℕ, px < img.width → py < img.height → img.pix px py = col) →
        ∀ c ∈ okD (ImageToGeojson.gridIndices img.width img.height s) [],
          ImageToGeojson.cellColor img s c = col := by
  refine ⟨fun _ => rfl, ?_⟩
  intro img col s hs hconst c hc
  obtain ⟨t, rfl⟩ : ∃ t : ℕ, s = (t : ℤ) := ⟨s.toNat, (Int.toNat_of_nonneg (by omega)).symm⟩
  rw [mem_gridIndices img.width img.height _ hs] at hc
  obtain ⟨i, j, hi, hj, hcq⟩ := hc
  subst hcq
  simp only [Int.toNat_ofNat] at hi hj
  unfold ImageToGeojson.cellColor
  simp only [← Nat.cast_mul, Int.toNat_ofNat]
  apply dominant_const
  · exact sectionPixels_ne_nil img _ _ _ hj hi (by exact_mod_cast hs)
  · intro a ha
    rw [sectionPixels_mem] at ha
    obtain ⟨dy, dx, hdy, hdx, ha⟩ := ha
    rw [ha]
    exact hconst _ _ (by omega) (by omega)

/-- Witness for C8 at a concrete input: a 2 × 2 constant raster. -/
theorem c8_mean_color_witness : ImageToGeojson.cellColor wImg22 2 (0, 0) = (9, 8, 7) :=
  c8_mean_color.2 wImg22 (9, 8, 7) 2 (by decide) (fun _ _ _ _ => rfl) (0, 0) (by decide)

/-- C6: for every raster size `width × height` and every grid size `s ≥ 1`,
the grid loops produce the cells in row-major order (x fastest, y outer);
the clipped pixel bounding boxes of the produced cells tile the raster
exactly — every pixel of the raster lies in the box of exactly one produced
cell; every produced cell starts inside `[0, width) × [0, height)`; and the
box of each cell is clipped at the image boundary (its end never exceeds the
raster extent). -/
theorem c6_grid_tiling (w h : ℕ) (s : ℤ) (hs : 1 ≤ s) :
    ImageToGeojson.gridIndices w h s =
      .ok ((List.range ((h + (s.toNat - 1)) / s.toNat)).flatMap fun i : ℕ =>
        (List.range ((w + (s.toNat - 1)) / s.toNat)).map fun j : ℕ =>
          (s * (j : ℤ), s * (i : ℤ)))
    ∧ (∀ px py : ℕ, px < w → py < h →
        ∃! c : ℤ × ℤ, c ∈ okD (ImageToGeojson.gridIndices w h s) [] ∧
          pixInBox w h s c px py)
    ∧ (∀ c ∈ okD (ImageToGeojson.gridIndices w h s) [],
        0 ≤ c.1 ∧ c.1 < (w : ℤ) ∧ 0 ≤ c.2 ∧ c.2 < (h : ℤ) ∧
        (cellBox w h s c).2.2.1 ≤ (w : ℤ) ∧ (cellBox w h s c).2.2.2 ≤ (h : ℤ)) := by
  obtain ⟨t, rfl⟩ : ∃ t : ℕ, s = (t : ℤ) := ⟨s.toNat, (Int.toNat_of_nonneg (by omega)).symm⟩
  have ht : 1 ≤ t := by exact_mod_cast hs
  refine ⟨gridIndices_pos w h _ hs, ?_, ?_⟩
  · intro px py hpx hpy
    refine ⟨(((t * (px / t) : ℕ) : ℤ), ((t * (py / t) : ℕ) : ℤ)), ⟨?_, ?_⟩, ?_⟩
    · rw [mem_gridIndices_nat w h t ht]
      refine ⟨py / t, px / t, ?_, ?_, rfl⟩
      · exact lt_of_le_of_lt (by rw [Nat.mul_comm]; exact Nat.div_mul_le_self py t) hpy
      · exact lt_of_le_of_lt (by rw [Nat.mul_comm]; exact Nat.div_mul_le_self px t) hpx
    · rw [pixInBox_nat]
      refine ⟨by rw [Nat.mul_comm]; exact Nat.div_mul_le_self px t,
        lt_min (nat_lt_div_mul_add px t ht) hpx,
        by rw [Nat.mul_comm]; exact Nat.div_mul_le_self py t,
        lt_min (nat_lt_div_mul_add py t ht) hpy⟩
    · rintro c ⟨hmem, hbox⟩
      rw [mem_gridIndices_nat w h t ht] at hmem
      obtain ⟨i, j, hi, hj, rfl⟩ := hmem
      rw [pixInBox_nat] at hbox
      obtain ⟨hb1, hb2, hb3, hb4⟩ := hbox
      have hj2 : px / t = j := by
        refine Nat.div_eq_of_lt_le (by rw [Nat.mul_comm]; exact hb1) ?_
        rw [Nat.add_mul, Nat.one_mul, Nat.mul_comm]
        exact lt_of_lt_of_le hb2 (min_le_left _ _)
      have hi2 : py / t = i := by
        refine Nat.div_eq_of_lt_le (by rw [Nat.mul_comm]; exact hb3) ?_
        rw [Nat.add_mul, Nat.one_mul, Nat.mul_comm]
        exact lt_of_lt_of_le hb4 (min_le_left _ _)
      rw [hj2, hi2]
  · intro c hc
    rw [mem_gridIndices_nat w h t ht] at hc
    obtain ⟨i, j, hi, hj, rfl⟩ := hc
    refine ⟨by positivity, ?_, by positivity, ?_, min_le_right _ _, min_le_right _ _⟩
    · show ((t * j : ℕ) : ℤ) < ((w : ℕ) : ℤ)
      exact_mod_cast hj
    · show ((t * i : ℕ) : ℤ) < ((h : ℕ) : ℤ)
      exact_mod_cast hi

/-- Witness for C6 at a concrete input: a 3 × 2 raster with grid size 2. -/
theorem c6_grid_tiling_witness :
    ImageToGeojson.gridIndices 3 2 2 = .ok [((0 : ℤ), (0 : ℤ)), (2, 0)]
    ∧ (0 ≤ ((2 : ℤ), (0 : ℤ)).1 ∧ ((2 : ℤ), (0 : ℤ)).1 < ((3 : ℕ) : ℤ) ∧
       0 ≤ ((2 : ℤ), (0 : ℤ)).2 ∧ ((2 : ℤ), (0 : ℤ)).2 < ((2 : ℕ) : ℤ) ∧
       (cellBox 3 2 2 (2, 0)).2.2.1 ≤ ((3 : ℕ) : ℤ) ∧
       (cellBox 3 2 2 (2, 0)).2.2.2 ≤ ((2 : ℕ) : ℤ)) :=
  ⟨((c6_grid_tiling 3 2 2 (by decide)).1).trans (congrArg Except.ok (by decide)),
   (c6_grid_tiling 3 2 2 (by decide)).2.2 (2, 0) (by decide)⟩

/-- C9: the image-to-GeoJSON converter and the image-to-shapefile converter
implement the same grid-sampling → spatial-filtering → color-clustering →
geometry-generation pipeline: on identical inputs (raster, reference layer,
grid size, offsets, cluster count, and the same external collaborators) the
two produce identical feature collections. -/
theorem c9_pipelines_agree (γ : Type) (fit : FitFn) (lib : GeoLib γ) (img : Raster)
    (ref : GeoRef γ) (p : Params) :
    ImageToGeojson.image_to_geojson_grid fit lib img ref p =
      ImageToShapefile.image_to_geojson_grid fit lib img ref p := rfl

/-- C1 counterexample: the source passes `n_clusters` to the k-means fit
unchanged.  On a run with 3 retained cells and `n_clusters = 10` the fit
raises sklearn's `n_samples < n_clusters` error instead of reducing the
cluster count to 3; on a run with 0 retained cells it raises sklearn's
empty-data error, which is not the spec's `InsufficientData` kind. -/
theorem c1_cluster_reduction_counterexample :
    ImageToGeojson.image_to_geojson_grid wFitRep wLibAll wImg31 wRef32
        { gridSize := 1, xOffset := 0, yOffset := 0, nClusters := 10 } =
      .error .sklearnTooFewSamples
    ∧ (ImageToGeojson.image_to_geojson_grid wFitRep wLibAll wImg31 wRef32
        { gridSize := 1, xOffset := 0, yOffset := 0, nClusters := 10 }).isOk = false
    ∧ ImageToGeojson.image_to_geojson_grid wFitRep wLibNone wImg31 wRef32
        { gridSize := 1, xOffset := 0, yOffset := 0, nClusters := 10 } =
      .error .sklearnEmptyData
    ∧ (PyErr.sklearnEmptyData == PyErr.specInsufficientData) = false :=
  ⟨rfl, rfl, rfl, rfl⟩

/-- C1 amended: the pipeline performs no cluster-count reduction.  For any
run with a non-zero grid size and `n_clusters ≥ 1`, if no cells are retained
the k-means fit fails with sklearn's empty-data error, and if fewer cells
are retained than `n_clusters` it fails with sklearn's
`n_samples < n_clusters` error; in both cases the pipeline propagates that
library error rather than reducing the cluster count or raising
`InsufficientData`. -/
theorem c1_cluster_reduction_amended (γ : Type) (fit : FitFn) (lib : GeoLib γ)
    (img : Raster) (ref : GeoRef γ) (p : Params) (hs : p.gridSize ≠ 0)
    (hk : 1 ≤ p.nClusters) :
    let data := (ImageToGeojson.retainedCells lib ref img.width img.height p
        (okD (ImageToGeojson.gridIndices img.width img.height p.gridSize) [])).map
      fun c => ImageToGeojson.cellColor img p.gridSize c
    (data.length = 0 →
      ImageToGeojson.image_to_geojson_grid fit lib img ref p = .error .sklearnEmptyData)
    ∧ (0 < data.length → (data.length : ℤ) < p.nClusters →
      ImageToGeojson.image_to_geojson_grid fit lib img ref p =
        .error .sklearnTooFewSamples) := by
  intro data
  have hrun := run_eq_of_cells fit lib img ref p _
    (gridIndices_ok_of_ne_zero img.width img.height p.gridSize hs)
  constructor
  · intro hlen
    rw [hrun]
    show (kmeansFit fit p.nClusters data).map _ = _
    unfold kmeansFit
    rw [if_neg (by omega), if_pos hlen]
    rfl
  · intro hpos hlt
    rw [hrun]
    show (kmeansFit fit p.nClusters data).map _ = _
    unfold kmeansFit
    rw [if_neg (by omega), if_neg (by omega), if_pos hlt]
    rfl

/-- Witness for the amended C1 at a concrete input: 2 retained cells,
`n_clusters = 5`. -/
theorem c1_cluster_reduction_amended_witness :
    ImageToGeojson.image_to_geojson_grid wFitRep wLibAll wImg21 wRef32
        { gridSize := 1, xOffset := 0, yOffset := 0, nClusters := 5 } =
      .error .sklearnTooFewSamples :=
  (c1_cluster_reduction_amended Unit wFitRep wLibAll wImg21 wRef32
    { gridSize := 1, xOffset := 0, yOffset := 0, nClusters := 5 }
    (by decide) (by decide)).2 (by decide) (by decide)

/-- C4 counterexample: with `grid_size = 0` the pipeline fails with the
`ValueError` of `range(0, height, 0)` — an error unrelated to the spec's
`InvalidParameter` kind, which the source never raises. -/
theorem c4_grid_size_error_counterexample :
    ImageToGeojson.image_to_geojson_grid wFitRep wLibAll wImg32 wRef32
        { gridSize := 0, xOffset := 0, yOffset := 0, nClusters := 10 } =
      .error .rangeZeroStep
    ∧ (PyErr.rangeZeroStep == PyErr.specInvalidParameter) = false :=
  ⟨rfl, rfl⟩

/-- C4 amended: the source has no `s ≤ 0` parameter check.  With
`grid_size = 0` the grid loop raises the `range` zero-step `ValueError`;
with `grid_size < 0` the grid loops produce no cells, so (for
`n_clusters ≥ 1`) the run fails with sklearn's empty-data error. -/
theorem c4_grid_size_error_amended (γ : Type) (fit : FitFn) (lib : GeoLib γ)
    (img : Raster) (ref : GeoRef γ) (p : Params) :
    (p.gridSize = 0 →
      ImageToGeojson.image_to_geojson_grid fit lib img ref p = .error .rangeZeroStep)
    ∧ (p.gridSize < 0 → 1 ≤ p.nClusters →
      ImageToGeojson.image_to_geojson_grid fit lib img ref p =
        .error .sklearnEmptyData) := by
  constructor
  · intro h0
    unfold ImageToGeojson.image_to_geojson_grid ImageToGeojson.gridIndices pythonRange
    rw [if_pos h0]
    rfl
  · intro hneg hk
    rw [run_eq_of_cells fit lib img ref p []
      (gridIndices_neg img.width img.height p.gridSize hneg)]
    show (kmeansFit fit p.nClusters []).map _ = _
    unfold kmeansFit
    rw [if_neg (by omega)]
    simp only [List.length_nil, if_pos]
    rfl

/-- Witness for the amended C4 at concrete inputs: grid sizes 0 and -2. -/
theorem c4_grid_size_error_amended_witness :
    ImageToGeojson.image_to_geojson_grid wFitRep wLibAll wImg22 wRef32
        { gridSize := 0, xOffset := 0, yOffset := 0, nClusters := 1 } =
      .error .rangeZeroStep
    ∧ ImageToGeojson.image_to_geojson_grid wFitRep wLibAll wImg22 wRef32
        { gridSize := -2, xOffset := 0, yOffset := 0, nClusters := 1 } =
      .error .sklearnEmptyData :=
  ⟨(c4_grid_size_error_amended Unit wFitRep wLibAll wImg22 wRef32
      { gridSize := 0, xOffset := 0, yOffset := 0, nClusters := 1 }).1 rfl,
   (c4_grid_size_error_amended Unit wFitRep wLibAll wImg22 wRef32
      { gridSize := -2, xOffset := 0, yOffset := 0, nClusters := 1 }).2
      (by decide) (by decide)⟩

/-- C2 counterexample: the source attaches `kmeans.predict([color])[0]` — a
post-hoc nearest-centroid lookup — to each feature, ignoring the labels the
fit produced.  At a concrete input whose (external, abstract) fit outcome
carries labels `[1, 0]` disagreeing with the nearest-centroid lookup, the
source emits `Cluster_0, Cluster_1` while the spec's fit-label assembler
emits `Cluster_1, Cluster_0`. -/
theorem c2_assignment_recomputed_counterexample :
    (ImageToGeojson.image_to_geojson_grid wFitC2 wLibAll wImgC2 wRefC2
        { gridSize := 1, xOffset := 0, yOffset := 0, nClusters := 2 }).map
      (List.map Feature.cluster) = .ok ["Cluster_0", "Cluster_1"]
    ∧ (specFitLabelRun wFitC2 wLibAll wImgC2 wRefC2
        { gridSize := 1, xOffset := 0, yOffset := 0, nClusters := 2 }).map
      (List.map Feature.cluster) = .ok ["Cluster_1", "Cluster_0"]
    ∧ (("Cluster_0" : String) == "Cluster_1") = false := by
  have hn1 : nearestIdx [((0 : ℚ), (0 : ℚ), (0 : ℚ)), (100, 100, 100)] (colorQ (0, 0, 0)) =
      0 := by
    rw [nearestIdx_cons2, nearestIdx_singleton]
    norm_num [sqDist, colorQ]
  have hn2 : nearestIdx [((0 : ℚ), (0 : ℚ), (0 : ℚ)), (100, 100, 100)]
      (colorQ (100, 100, 100)) = 1 := by
    rw [nearestIdx_cons2, nearestIdx_singleton]
    norm_num [sqDist, colorQ]
  refine ⟨?_, by rfl, by decide⟩
  have hL : (ImageToGeojson.image_to_geojson_grid wFitC2 wLibAll wImgC2 wRefC2
      { gridSize := 1, xOffset := 0, yOffset := 0, nClusters := 2 }).map
      (List.map Feature.cluster) =
      .ok ["Cluster_" ++ toString (nearestIdx [((0 : ℚ), (0 : ℚ), (0 : ℚ)), (100, 100, 100)]
             (colorQ (0, 0, 0))),
           "Cluster_" ++ toString (nearestIdx [((0 : ℚ), (0 : ℚ), (0 : ℚ)), (100, 100, 100)]
             (colorQ (100, 100, 100)))] := rfl
  rw [hL, hn1, hn2]
  rfl

/-- C2 amended: for every run that succeeds, the cluster id attached to each
emitted feature is re-computed after the fit by the nearest-centroid lookup
`kmeans.predict` of the cell's color against the fitted centers (the labels
produced during the fit are never read). -/
theorem c2_assignment_recomputed_amended (γ : Type) (fit : FitFn) (lib : GeoLib γ)
    (img : Raster) (ref : GeoRef γ) (p : Params) (fs : List Feature)
    (hrun : ImageToGeojson.image_to_geojson_grid fit lib img ref p = .ok fs) :
    let cells := okD (ImageToGeojson.gridIndices img.width img.height p.gridSize) []
    let ret := ImageToGeojson.retainedCells lib ref img.width img.height p cells
    let data := ret.map fun c => ImageToGeojson.cellColor img p.gridSize c
    fs.map Feature.cluster = ret.map fun c => "Cluster_" ++
      toString (nearestIdx (fit p.nClusters.toNat data).1
        (colorQ (ImageToGeojson.cellColor img p.gridSize c))) := by
  intro cells ret data
  obtain ⟨-, -, -, -, h5⟩ := run_ok_elim hrun
  rw [h5]
  unfold ImageToGeojson.mkFeatures
  rw [List.map_map]
  rfl

/-- Witness for the amended C2 at a concrete input. -/
theorem c2_assignment_recomputed_amended_witness :
    (okD (ImageToGeojson.image_to_geojson_grid wFitC2 wLibAll wImgC2 wRefC2
        { gridSize := 1, xOffset := 0, yOffset := 0, nClusters := 2 }) []).map
      Feature.cluster =
      (ImageToGeojson.retainedCells wLibAll wRefC2 wImgC2.width wImgC2.height
        { gridSize := 1, xOffset := 0, yOffset := 0, nClusters := 2 }
        (okD (ImageToGeojson.gridIndices wImgC2.width wImgC2.height 1) [])).map
        fun c => "Cluster_" ++ toString (nearestIdx
          (wFitC2 2 ((ImageToGeojson.retainedCells wLibAll wRefC2 wImgC2.width wImgC2.height
            { gridSize := 1, xOffset := 0, yOffset := 0, nClusters := 2 }
            (okD (ImageToGeojson.gridIndices wImgC2.width wImgC2.height 1) [])).map
            fun c2 => ImageToGeojson.cellColor wImgC2 1 c2)).1
          (colorQ (ImageToGeojson.cellColor wImgC2 1 c))) :=
  c2_assignment_recomputed_amended Unit wFitC2 wLibAll wImgC2 wRefC2
    { gridSize := 1, xOffset := 0, yOffset := 0, nClusters := 2 } _ rfl

/-- C3 counterexample: the emitted polygon uses the UNclipped far corner
`(x + grid_size, y + grid_size)`.  On a 3 × 2 raster with grid size 2 and the
identity-scale bounds `(0, 0, 3, 2)`, the second cell `(x = 2)` yields the
ring `[(2,2), (4,2), (4,0), (2,0), (2,2)]`, whose corners come from pixel
x-coordinate 4 > width = 3; the ring of the clipped box would be
`[(2,2), (3,2), (3,0), (2,0), (2,2)]`, and the two differ. -/
theorem c3_polygon_clipping_counterexample :
    (ImageToGeojson.image_to_geojson_grid wFitRep wLibAll wImg32 wRef32
        { gridSize := 2, xOffset := 0, yOffset := 0, nClusters := 1 }).map
      (List.map Feature.ring) =
      .ok [[((0 : ℚ), 2), (2, 2), (2, 0), (0, 0), (0, 2)],
           [((2 : ℚ), 2), (4, 2), (4, 0), (2, 0), (2, 2)]]
    ∧ (([((2 : ℚ), 2), (4, 2), (4, 0), (2, 0), (2, 2)] : List (ℚ × ℚ)) ==
        [((2 : ℚ), 2), (3, 2), (3, 0), (2, 0), (2, 2)]) = false := by
  have hp0 : ImageToGeojson.cellPoly wRef32 3 2
      { gridSize := 2, xOffset := 0, yOffset := 0, nClusters := 1 } 0 0 =
      [((0 : ℚ), 2), (2, 2), (2, 0), (0, 0)] := by
    norm_num [ImageToGeojson.cellPoly, affineApply, wRef32]
  have hp2 : ImageToGeojson.cellPoly wRef32 3 2
      { gridSize := 2, xOffset := 0, yOffset := 0, nClusters := 1 } 2 0 =
      [((2 : ℚ), 2), (4, 2), (4, 0), (2, 0)] := by
    norm_num [ImageToGeojson.cellPoly, affineApply, wRef32]
  constructor
  · have hR : (ImageToGeojson.image_to_geojson_grid wFitRep wLibAll wImg32 wRef32
        { gridSize := 2, xOffset := 0, yOffset := 0, nClusters := 1 }).map
        (List.map Feature.ring) =
        .ok [ImageToGeojson.cellPoly wRef32 3 2
              { gridSize := 2, xOffset := 0, yOffset := 0, nClusters := 1 } 0 0 ++
              [(ImageToGeojson.cellPoly wRef32 3 2
                { gridSize := 2, xOffset := 0, yOffset := 0, nClusters := 1 } 0 0).getD 0
                (0, 0)],
             ImageToGeojson.cellPoly wRef32 3 2
              { gridSize := 2, xOffset := 0, yOffset := 0, nClusters := 1 } 2 0 ++
              [(ImageToGeojson.cellPoly wRef32 3 2
                { gridSize := 2, xOffset := 0, yOffset := 0, nClusters := 1 } 2 0).getD 0
                (0, 0)]] := rfl
    rw [hR, hp0, hp2]
    rfl
  · decide

/-- C3 amended: every emitted feature's polygon ring is obtained by applying
the affine map at the four UNclipped corners of the cell box — `(x + xo,
y + yo)` and `(x + s + xo, y + s + yo)` — closed by repeating the first
point; at the right and bottom edges these corners may lie beyond
`(width, height)` (no clipping is applied to the polygon). -/
theorem c3_polygon_unclipped_amended (γ : Type) (fit : FitFn) (lib : GeoLib γ)
    (img : Raster) (ref : GeoRef γ) (p : Params) (fs : List Feature)
    (hrun : ImageToGeojson.image_to_geojson_grid fit lib img ref p = .ok fs) :
    let cells := okD (ImageToGeojson.gridIndices img.width img.height p.gridSize) []
    let ret := ImageToGeojson.retainedCells lib ref img.width img.height p cells
    fs.map Feature.ring = ret.map fun c =>
      let a := affineApply ref img.width img.height ((c.1 + p.xOffset : ℤ) : ℚ)
        ((c.2 + p.yOffset : ℤ) : ℚ)
      let b := affineApply ref img.width img.height
        ((c.1 + p.gridSize + p.xOffset : ℤ) : ℚ) ((c.2 + p.gridSize + p.yOffset : ℤ) : ℚ)
      [(a.1, a.2), (b.1, a.2), (b.1, b.2), (a.1, b.2), (a.1, a.2)] := by
  intro cells ret
  obtain ⟨-, -, -, -, h5⟩ := run_ok_elim hrun
  rw [h5]
  unfold ImageToGeojson.mkFeatures ImageToGeojson.cellPoly
  rw [List.map_map]
  rfl

/-- Witness for the amended C3 at a concrete input. -/
theorem c3_polygon_unclipped_amended_witness :
    (okD (ImageToGeojson.image_to_geojson_grid wFitRep wLibAll wImg32 wRef32
        { gridSize := 2, xOffset := 1, yOffset := 0, nClusters := 1 }) []).map
      Feature.ring =
      (ImageToGeojson.retainedCells wLibAll wRef32 wImg32.width wImg32.height
        { gridSize := 2, xOffset := 1, yOffset := 0, nClusters := 1 }
        (okD (ImageToGeojson.gridIndices wImg32.width wImg32.height 2) [])).map
        fun c =>
          let a := affineApply wRef32 wImg32.width wImg32.height ((c.1 + 1 : ℤ) : ℚ)
            ((c.2 + 0 : ℤ) : ℚ)
          let b := affineApply wRef32 wImg32.width wImg32.height ((c.1 + 2 + 1 : ℤ) : ℚ)
            ((c.2 + 2 + 0 : ℤ) : ℚ)
          [(a.1, a.2), (b.1, a.2), (b.1, b.2), (a.1, b.2), (a.1, a.2)] :=
  c3_polygon_unclipped_amended Unit wFitRep wLibAll wImg32 wRef32
    { gridSize := 2, xOffset := 1, yOffset := 0, nClusters := 1 } _ rfl

/-- C10: for every run that succeeds (with the sklearn guarantees on the fit
output: exactly `n_clusters` centroids, each within the 8-bit channel range),
every emitted feature has a polygon ring of exactly 5 coordinate pairs whose
last pair equals the first, a color property of the form `#` followed by six
lowercase hexadecimal digits, and a cluster property `Cluster_<id>` with
`0 ≤ id <` the requested cluster count. -/
theorem c10_feature_invariants (γ : Type) (fit : FitFn) (lib : GeoLib γ)
    (img : Raster) (ref : GeoRef γ) (p : Params) (fs : List Feature)
    (hrun : ImageToGeojson.image_to_geojson_grid fit lib img ref p = .ok fs)
    (hlen : ∀ (k : ℕ) (data : List (ℕ × ℕ × ℕ)), ((fit k data).1).length = k)
    (hbound : ∀ (k : ℕ) (data : List (ℕ × ℕ × ℕ)), ∀ cc ∈ (fit k data).1,
      0 ≤ cc.1 ∧ cc.1 ≤ 255 ∧ 0 ≤ cc.2.1 ∧ cc.2.1 ≤ 255 ∧
      0 ≤ cc.2.2 ∧ cc.2.2 ≤ 255) :
    ∀ f ∈ fs, ringClosed5 f.ring = true ∧ colorHex7 f.color = true ∧
      clusterTagLt p.nClusters f.cluster = true := by
  obtain ⟨-, hk1, -, -, h5⟩ := run_ok_elim hrun
  intro f hf
  rw [h5] at hf
  set R := ImageToGeojson.retainedCells lib ref img.width img.height p
    (okD (ImageToGeojson.gridIndices img.width img.height p.gridSize) []) with hR
  set D := R.map fun c => ImageToGeojson.cellColor img p.gridSize c with hD
  set cen := (fit p.nClusters.toNat D).1 with hcen
  have hlenC : cen.length = p.nClusters.toNat := by rw [hcen]; exact hlen _ _
  have hne : cen ≠ [] := by
    intro hnil
    rw [hnil] at hlenC
    simp at hlenC
    omega
  obtain ⟨ha, hb, id, hid, hcl⟩ := mkFeatures_invariants ref img p cen R hne
    (fun cc hcc => by rw [hcen] at hcc; exact hbound _ _ cc hcc) f hf
  refine ⟨ha, hb, ?_⟩
  rw [hcl]
  unfold clusterTagLt
  rw [List.any_eq_true]
  refine ⟨id, List.mem_range.2 ?_, by simp⟩
  rw [hlenC] at hid
  omega

/-- Witness for C10 at a concrete input: a 1 × 1 raster, grid size 1, one
cluster. -/
theorem c10_feature_invariants_witness :
    ringClosed5 [((0 : ℚ), 1), (1, 1), (1, 0), (0, 0), (0, 1)] = true
    ∧ colorHex7 "#010203" = true
    ∧ clusterTagLt 1 "Cluster_0" = true := by
  have hlenW : ∀ (k : ℕ) (data : List (ℕ × ℕ × ℕ)), ((wFitRep k data).1).length = k := by
    intro k data
    simp [wFitRep]
  have hboundW : ∀ (k : ℕ) (data : List (ℕ × ℕ × ℕ)), ∀ cc ∈ (wFitRep k data).1,
      0 ≤ cc.1 ∧ cc.1 ≤ 255 ∧ 0 ≤ cc.2.1 ∧ cc.2.1 ≤ 255 ∧
      0 ≤ cc.2.2 ∧ cc.2.2 ≤ 255 := by
    intro k data cc hcc
    rw [wFitRep, List.mem_replicate] at hcc
    rw [hcc.2]
    norm_num
  have hni : nearestIdx [((1 : ℚ), (2 : ℚ), (3 : ℚ))] (colorQ (5, 6, 7)) = 0 := rfl
  have hpoly : ImageToGeojson.cellPoly wRef11 1 1
      { gridSize := 1, xOffset := 0, yOffset := 0, nClusters := 1 } 0 0 =
      [((0 : ℚ), 1), (1, 1), (1, 0), (0, 0)] := by
    norm_num [ImageToGeojson.cellPoly, affineApply, wRef11]
  have htr1 : truncQ 1 = 1 := by norm_num [truncQ]
  have htr2 : truncQ 2 = 2 := by norm_num [truncQ]
  have htr3 : truncQ 3 = 3 := by norm_num [truncQ]
  have hhex : ImageToGeojson.rgb_to_hex 1 2 3 = "#010203" := by
    unfold ImageToGeojson.rgb_to_hex hex02List
    rw [if_neg (by norm_num), if_neg (by norm_num), if_neg (by norm_num),
      natHexDigits_lt16 _ (by norm_num), natHexDigits_lt16 _ (by norm_num),
      natHexDigits_lt16 _ (by norm_num)]
    decide
  have hR : okD (ImageToGeojson.image_to_geojson_grid wFitRep wLibAll wImg11 wRef11
      { gridSize := 1, xOffset := 0, yOffset := 0, nClusters := 1 }) [] =
      [{ ring := ImageToGeojson.cellPoly wRef11 1 1
            { gridSize := 1, xOffset := 0, yOffset := 0, nClusters := 1 } 0 0 ++
            [(ImageToGeojson.cellPoly wRef11 1 1
              { gridSize := 1, xOffset := 0, yOffset := 0, nClusters := 1 } 0 0).getD 0
              (0, 0)],
         color := [ImageToGeojson.rgb_to_hex (truncQ 1) (truncQ 2) (truncQ 3)].getD
            (nearestIdx [((1 : ℚ), (2 : ℚ), (3 : ℚ))] (colorQ (5, 6, 7))) "",
         cluster := "Cluster_" ++
            toString (nearestIdx [((1 : ℚ), (2 : ℚ), (3 : ℚ))] (colorQ (5, 6, 7))) }] := rfl
  have hfs : okD (ImageToGeojson.image_to_geojson_grid wFitRep wLibAll wImg11 wRef11
      { gridSize := 1, xOffset := 0, yOffset := 0, nClusters := 1 }) [] = [wFeat11] := by
    rw [hR, hni, htr1, htr2, htr3, hhex, hpoly]
    rfl
  have hmem : wFeat11 ∈
      okD (ImageToGeojson.image_to_geojson_grid wFitRep wLibAll wImg11 wRef11
        { gridSize := 1, xOffset := 0, yOffset := 0, nClusters := 1 }) [] := by
    rw [hfs]
    exact List.mem_singleton.2 rfl
  exact c10_feature_invariants Unit wFitRep wLibAll wImg11 wRef11
    { gridSize := 1, xOffset := 0, yOffset := 0, nClusters := 1 } _ rfl hlenW hboundW
    wFeat11 hmem

end Geodog
